import Mathlib

/-!
Verification of the `awslaunch` CLI core (`awslaunch.py`) against its
natural-language specification.

The Python source is shallowly embedded here:

* pure helpers (`generate_role_arn`, `generate_url`, `generate_session_name`,
  `generate_save_profile_name`, `choose_role_name`,
  `generate_session_credentials_commands`) become Lean functions over
  `String` / `List Char` / `Nat`;
* the profile persister (`save_profile`) becomes a pure function on the parsed
  INI representation of the `~/.aws/config` file, returning `Except`;
* `main`'s action-dispatch block (lines 160-196 of the source) becomes
  `dispatchActions`, a pure function from the resolved action list and an
  environment (STS behaviour, caller identity, tty input, config file) to a
  record of all observable effects (stdout statements, stderr messages,
  browser opens, AssumeRole requests, file writes, terminal error).

Machine integers do not occur in the relevant code paths; all arithmetic is
on `Nat`.
-/

/-! ## Slugification (source lines 81-82)

`generate_save_profile_name` lower-cases `f"{account_display_name}-{role_name}"`
and then replaces every character of the regex class
`[!@#$%^&\*\(\)\[\]\{\};:\,\./<>\?\|`~=_+ ]` with `-`.
`Char.toLower` is the embedding of CPython's `str.lower` restricted to ASCII;
no character of the replacement class is an upper-case letter, so the
restriction does not affect which characters get replaced. -/

/-- The replacement character class of the `re.sub` on source line 82:
every character of ``!@#$%^&*()[]{};:,./<>?|`~=_+`` together with the space. -/
def slugChars : List Char :=
  ['!', '@', '#', '$', '%', '^', '&', '*', '(', ')', '[', ']', '{', '}',
   ';', ':', ',', '.', '/', '<', '>', '?', '|', '`', '~', '=', '_', '+', ' ']

/-- One character of the `re.sub(...)` replacement: characters in the class
become `'-'`, all others are kept. -/
def slugReplace (c : Char) : Char :=
  if slugChars.contains c then '-' else c

/-- The composite transformation of source line 82: lower-case the whole
string, then replace every character of the class with `'-'`. -/
def slugify (s : String) : String :=
  String.mk ((s.data.map Char.toLower).map slugReplace)

/-- Embedding of `generate_save_profile_name` (source lines 81-82). -/
def generate_save_profile_name (account_display_name role_name : String) : String :=
  slugify (account_display_name ++ "-" ++ role_name)

/-! ## Role ARN (source lines 44-45) -/

/-- Embedding of `generate_role_arn` (source lines 44-45). -/
def generate_role_arn (account_id role_name : String) : String :=
  "arn:aws:iam::" ++ account_id ++ ":role/" ++ role_name

/-- Modelled from the spec: the source has no parser for role ARNs, so the
round-trip property of spec §8 is stated against this inverse of the format
`arn:aws:iam::<AccountId>:role/<RoleName>`: strip the fixed prefix, read the
account id up to the next `':'`, demand the `":role/"` separator, and return
the remainder as the role name. List-of-characters version. -/
def parse_role_arn_list (l : List Char) : Option (List Char × List Char) :=
  if "arn:aws:iam::".data.isPrefixOf l then
    let rest := l.drop "arn:aws:iam::".data.length
    let acct := rest.takeWhile (fun c => !(c == ':'))
    let rest2 := rest.dropWhile (fun c => !(c == ':'))
    if ":role/".data.isPrefixOf rest2 then
      some (acct, rest2.drop ":role/".data.length)
    else none
  else none

/-- Modelled from the spec (see `parse_role_arn_list`): the same parser,
packaged on `String`. -/
def parse_role_arn (s : String) : Option (String × String) :=
  (parse_role_arn_list s.data).map (fun p => (String.mk p.1, String.mk p.2))

/-! ## Session name (source lines 53-61)

`generate_session_name` returns `config["role_session_name"]` when truthy,
else tries `re.findall(r".+/(.+)", caller_arn)[0]` and falls back to
`"awslaunch"` on any exception (failed lookup, or no regex match, which makes
the `[0]` raise `IndexError`).

Embedding of the regex: `.` matches any character except `'\n'`, so a match
lives entirely inside one newline-separated segment of the subject.  Within a
segment `L` (no newlines), Python's scan-plus-backtracking semantics of
`.+/(.+)` is: a match exists iff some index `j` has `L[j] = '/'`, at least one
character before it (`1 ≤ j`, the greedy nonempty `.+`) and at least one
character after it (`j + 1 < L.length`, the nonempty group); backtracking
from the longest `.+` picks the largest such `j`, and the greedy group then
extends to the end of the segment.  `re.findall`'s first element comes from
the first segment containing a match. -/

/-- Split a character list at `'\n'` (the segments in which `.` can match). -/
def splitLines (s : List Char) : List (List Char) :=
  match s with
  | [] => [[]]
  | c :: rest =>
    let r := splitLines rest
    if c = '\n' then [] :: r
    else
      match r with
      | [] => [[c]]
      | l :: ls => (c :: l) :: ls

/-- The largest index `j` of `L` with `L[j] = '/'`, at least one character
before it and at least one character after it; `none` if there is none. -/
def lastGoodSlash (L : List Char) : Option Nat :=
  ((List.range L.length).filter
    (fun j => decide (1 ≤ j) && decide (j + 1 < L.length) && (L.getD j ' ' == '/'))).getLast?

/-- First-match group of `.+/(.+)` inside one newline-free segment. -/
def lineGroup (L : List Char) : Option (List Char) :=
  match lastGoodSlash L with
  | some j => some (L.drop (j + 1))
  | none => none

/-- Embedding of `re.findall(r".+/(.+)", s)[0]` (source line 59): the group of
the first match, `none` when `findall` returns the empty list (in which case
the Python indexing raises and the `except` branch takes over). -/
def findallFirstGroup (s : List Char) : Option (List Char) :=
  (splitLines s).findSome? lineGroup

/-- The `except`-protected part of `generate_session_name` (source lines
57-61): `lookup` is the outcome of `sts_client.get_caller_identity()["Arn"]`
(`none` when the call raises). -/
def sessionNameFallback (lookup : Option String) : String :=
  match lookup with
  | none => "awslaunch"
  | some arn =>
    match findallFirstGroup arn.data with
    | some g => String.mk g
    | none => "awslaunch"

/-- Embedding of `generate_session_name` (source lines 53-61).
`roleSessionName` is `config.get("role_session_name")`; a present-but-empty
string is falsy in Python, hence also falls through. -/
def generate_session_name (lookup roleSessionName : Option String) : String :=
  match roleSessionName with
  | some n => if n.isEmpty then sessionNameFallback lookup else n
  | none => sessionNameFallback lookup

/-- Follows claim C4's words: the substring of the ARN after its final `'/'`
when such a (nonempty) segment exists, otherwise the literal. -/
def claimedFallback (lookup : Option String) : String :=
  match lookup with
  | none => "awslaunch"
  | some arn =>
    match (((List.range arn.data.length).filter
        (fun j => arn.data.getD j ' ' == '/')).getLast?) with
    | some j =>
      if (arn.data.drop (j + 1)).isEmpty then "awslaunch"
      else String.mk (arn.data.drop (j + 1))
    | none => "awslaunch"

/-- Follows claim C4's words, lifted over the config value exactly as
`generate_session_name` is. -/
def claimedSessionName (lookup roleSessionName : Option String) : String :=
  match roleSessionName with
  | some n => if n.isEmpty then claimedFallback lookup else n
  | none => claimedFallback lookup

/-- Follows the amended claim's words: the suffix after the last `'/'` that
has at least one character before it and at least one character after it
(exactly `lastGoodSlash`), otherwise the literal. -/
def amendedFallback (lookup : Option String) : String :=
  match lookup with
  | none => "awslaunch"
  | some arn =>
    match lastGoodSlash arn.data with
    | some j => String.mk (arn.data.drop (j + 1))
    | none => "awslaunch"

/-- Follows the amended claim's words, lifted over the config value exactly
as `generate_session_name` is. -/
def amendedSessionName (lookup roleSessionName : Option String) : String :=
  match roleSessionName with
  | some n => if n.isEmpty then amendedFallback lookup else n
  | none => amendedFallback lookup

/-! ## Role selection (source lines 93-102)

`choose_role_name` returns `args.role_name` when given; otherwise it computes
`role_map.get(int(account_id), role_map.get("_", ["OrganizationAccountAccessRole"]))`
and returns the sole element without prompting when the list is a singleton,
else hands the sorted list to the interactive picker.  The picker's outcome
depends on the user, so the result type records *whether* a prompt happens and
over which candidate list. -/

/-- A key of the `roles` mapping in the YAML config: a numeric account id or
the literal `"_"`. -/
inductive RoleKey where
  | wildcard
  | acct (id : Nat)
deriving DecidableEq

/-- The `roles` mapping of the config, as the parsed YAML dictionary. -/
abbrev RoleMap : Type := List (RoleKey × List String)

/-- Embedding of Python `dict.get` on the roles mapping. -/
def roleMapGet (rm : RoleMap) (k : RoleKey) : Option (List String) :=
  (List.find? (fun e => decide (e.1 = k)) rm).map (fun e => e.2)

/-- Code-point lexicographic comparison of character lists, the order Python
uses to compare strings. -/
def charListLt : List Char → List Char → Bool
  | [], [] => false
  | [], _ :: _ => true
  | _ :: _, [] => false
  | a :: as, b :: bs =>
    if a.toNat < b.toNat then true
    else if b.toNat < a.toNat then false
    else charListLt as bs

/-- Code-point lexicographic comparison of strings. -/
def strLt (a b : String) : Bool :=
  charListLt a.data b.data

/-- Insertion of one string into an ascending list; `sortStrings` is the
embedding of Python `sorted` on a list of strings (code-point
lexicographic). -/
def insertSorted (x : String) : List String → List String
  | [] => [x]
  | y :: ys => if strLt y x then y :: insertSorted x ys else x :: y :: ys

/-- Embedding of Python `sorted` for lists of strings. -/
def sortStrings (l : List String) : List String :=
  l.foldr insertSorted []

/-- Outcome of `choose_role_name`: either a role returned without prompting,
or an interactive prompt over the given candidate list (whose answer is up to
the user). -/
inductive RoleChoice where
  | noPrompt (role : String)
  | prompt (candidates : List String)
deriving DecidableEq

/-- The candidate set of source line 96-97:
`roles[AccountId]` if present, else `roles["_"]` if present, else the
hardcoded default. -/
def candidateRoles (rm : RoleMap) (account_id : Nat) : List String :=
  (roleMapGet rm (RoleKey.acct account_id)).getD
    ((roleMapGet rm RoleKey.wildcard).getD ["OrganizationAccountAccessRole"])

/-- Embedding of `choose_role_name` (source lines 93-102).  `args_role_name`
is `args.role_name`; `account_id` is the account id after `int()` conversion.
The `len(roles) == 1` test of line 98 is the singleton pattern below. -/
def choose_role_name (rm : RoleMap) (account_id : Nat) (args_role_name : Option String) :
    RoleChoice :=
  match args_role_name with
  | some r => RoleChoice.noPrompt r
  | none =>
    match candidateRoles rm account_id with
    | [r] => RoleChoice.noPrompt r
    | rs => RoleChoice.prompt (sortStrings rs)

/-- The role map of the worked example in spec §8:
`roles = {"_": ["A"], 111: ["B","C"]}`. -/
def exampleRoleMap : RoleMap :=
  [(RoleKey.wildcard, ["A"]), (RoleKey.acct 111, ["B", "C"])]

/-! ## Switch-role URL (source lines 48-50)

`generate_url` percent-encodes only the display name, with
`urllib.parse.quote_plus`: the string is UTF-8 encoded; bytes of
`[A-Za-z0-9_.~-]` stay themselves, the space becomes `'+'`, every other byte
becomes an upper-case `%XX` escape. -/

/-- The UTF-8 encoding of one scalar value, as byte values (CPython's
`str.encode("utf-8")`; `Char` carries exactly the scalar values, so no
surrogate branch is needed). -/
def utf8Bytes (c : Char) : List Nat :=
  let n := c.toNat
  if n < 128 then [n]
  else if n < 2048 then [192 + n / 64, 128 + n % 64]
  else if n < 65536 then [224 + n / 4096, 128 + (n / 64) % 64, 128 + n % 64]
  else [240 + n / 262144, 128 + (n / 4096) % 64, 128 + (n / 64) % 64, 128 + n % 64]

/-- Bytes `quote_plus` leaves unescaped (urllib's always-safe set; the extra
`safe` parameter of `quote_plus` is empty here): digits, ASCII letters, and
`'_'`, `'.'`, `'-'`, `'~'`. -/
def urlSafeByte (n : Nat) : Bool :=
  (decide (48 ≤ n) && decide (n ≤ 57)) || (decide (65 ≤ n) && decide (n ≤ 90))
    || (decide (97 ≤ n) && decide (n ≤ 122))
    || (n == 95) || (n == 46) || (n == 45) || (n == 126)

/-- Upper-case hex digit of a value below 16, as `%XX` escapes use. -/
def hexUpper (k : Nat) : Char :=
  if k < 10 then Char.ofNat (48 + k) else Char.ofNat (55 + k)

/-- `quote_plus` on a single byte: safe bytes stay, the space byte becomes
`'+'`, everything else becomes `%XX`. -/
def quoteByte (n : Nat) : List Char :=
  if urlSafeByte n then [Char.ofNat n]
  else if n == 32 then ['+']
  else ['%', hexUpper (n / 16), hexUpper (n % 16)]

/-- Embedding of `urllib.parse.quote_plus` (source line 49). -/
def quote_plus (s : String) : String :=
  String.mk (((s.data.map utf8Bytes).flatten).map quoteByte).flatten

/-- Embedding of `generate_url` (source lines 48-50). -/
def generate_url (role_name account_id display_name : String) : String :=
  "https://signin.aws.amazon.com/switchrole?roleName=" ++ role_name
    ++ "&account=" ++ account_id ++ "&displayName=" ++ quote_plus display_name

/-- A character that may appear in `quote_plus` output: a safe byte's
character, the plus sign, or the percent sign (hex digits are safe bytes). -/
def urlAllowedChar (c : Char) : Bool :=
  urlSafeByte c.toNat || (c == '+') || (c == '%')

/-! ## Profile persister (source lines 122-133)

`save_profile` reads `~/.aws/config` with `configparser`, calls
`add_section(f"profile {profile_name}")` — which raises
`DuplicateSectionError` when the section already exists, *before* the file is
opened for writing — then copies the source profile's section (a `KeyError`
when absent), overwrites three keys, and writes the whole file back.

The file is modelled at the parsed level `configparser` works on: an ordered
list of sections, each an ordered list of key/value pairs (option keys are
already lower-cased by `configparser` on read; `%`-interpolation and the
special `DEFAULT` section do not occur in AWS config files and are not
modelled).  A successful run writes the new file; a raised exception leaves
the file untouched. -/

/-- One section of the parsed config file: section name and ordered
key/value pairs. -/
abbrev ConfigSection : Type := String × List (String × String)

/-- The parsed config file: ordered list of sections. -/
abbrev ConfigFile : Type := List ConfigSection

/-- Exceptions `save_profile` can raise: `configparser.DuplicateSectionError`
(the spec's `ProfileConflictError`) from `add_section`, and `KeyError` when
the source profile's section is missing. -/
inductive SaveError where
  | duplicateSection
  | missingSourceSection
deriving DecidableEq

/-- Embedding of `parser[section][key] = value`: replace the value in place
when the key exists, else append the pair. -/
def setConfigKey (items : List (String × String)) (key value : String) :
    List (String × String) :=
  if items.any (fun kv => kv.1 == key) then
    items.map (fun kv => if kv.1 == key then (kv.1, value) else kv)
  else items ++ [(key, value)]

/-- Embedding of `save_profile` (source lines 122-133), acting on the parsed
file contents; `Except.ok` carries the file contents written back. -/
def save_profile (cfg : ConfigFile) (source_profile role_arn session_name profile_name : String) :
    Except SaveError ConfigFile :=
  let sectionName := "profile " ++ profile_name
  if cfg.any (fun sec => sec.1 == sectionName) then
    Except.error SaveError.duplicateSection
  else
    match cfg.find? (fun sec => sec.1 == "profile " ++ source_profile) with
    | none => Except.error SaveError.missingSourceSection
    | some src =>
      Except.ok (cfg ++ [(sectionName,
        setConfigKey (setConfigKey (setConfigKey src.2
          "source_profile" source_profile)
          "role_session_name" session_name)
          "role_arn" role_arn)])

/-- The on-disk file after running `save_profile`: the written contents on
success, the unchanged original when an exception was raised before the
`open(..., "w")` on source line 132. -/
def save_profile_file_after (cfg : ConfigFile)
    (source_profile role_arn session_name profile_name : String) : ConfigFile :=
  match save_profile cfg source_profile role_arn session_name profile_name with
  | Except.ok newCfg => newCfg
  | Except.error _ => cfg

/-! ## Session broker request (source lines 64-78)

`generate_session_credentials_commands` builds the `assume_role` keyword
dictionary — `ExternalId` is added only when `external_id` is truthy — calls
STS, and formats three shell `export` statements from the returned
credentials.  The request construction and the formatting are split into two
functions here so the dispatcher can record the request it sends. -/

/-- The keyword dictionary passed to `sts_client.assume_role` (source lines
66-72). -/
structure AssumeRoleRequest where
  roleArn : String
  roleSessionName : String
  durationSeconds : Nat
  externalId : Option String
deriving DecidableEq

/-- The `Credentials` part of the `assume_role` response. -/
structure Credentials where
  accessKeyId : String
  secretAccessKey : String
  sessionToken : String
deriving DecidableEq

/-- Embedding of the request construction of source lines 65-72.  In Python
`external_id` is a keyword parameter with default `""`; `main` never passes
it, so the call site in the dispatcher below always supplies `""`. -/
def assume_role_kwargs (role_arn session_name : String) (duration_hours : Nat)
    (external_id : String) : AssumeRoleRequest :=
  { roleArn := role_arn
    roleSessionName := session_name
    durationSeconds := 3600 * duration_hours
    externalId := if external_id.isEmpty then none else some external_id }

/-- Embedding of the formatting of source lines 74-78. -/
def generate_session_credentials_commands (credentials : Credentials) : List String :=
  ["export AWS_ACCESS_KEY_ID=\"" ++ credentials.accessKeyId ++ "\"",
   "export AWS_SECRET_ACCESS_KEY=\"" ++ credentials.secretAccessKey ++ "\"",
   "export AWS_SESSION_TOKEN=\"" ++ credentials.sessionToken ++ "\""]

/-! ## Action dispatch (source lines 15-21, 105-112, 158-196)

`main` resolves account, role, ARN and URL, then runs the requested actions.
The action list only influences this block through the five membership tests
`"assume" in actions`, ..., `"role" in actions` (after the emptiness check of
line 160), which is what fixes the execution order to the declaration order
of the `ACTIONS` dictionary. -/

/-- The five actions of the `ACTIONS` dictionary (source lines 15-21), in
declaration order. -/
inductive CliAction where
  | assume
  | browser
  | save
  | url
  | role
deriving DecidableEq

/-- Errors that terminate `main`, in the taxonomy of spec §7.  The first five
are the ordinary usage errors; `invariantFault` is the bare
`Exception("Oh dang this should never happen, ...")` of source line 161. -/
inductive MainError where
  | directoryError
  | notFoundError
  | selectionAbortedError
  | awsApiError
  | profileConflictError
  | keyError
  | invariantFault
deriving DecidableEq, BEq

/-- Map the persister's exceptions into the taxonomy. -/
def saveErrorToMain : SaveError → MainError
  | SaveError.duplicateSection => MainError.profileConflictError
  | SaveError.missingSourceSection => MainError.keyError

/-- Command-line arguments that reach the dispatch block.
`external_id` defaults to `""` when the flag is absent (source line 207);
`duration_hours` is modelled after `int()` conversion. -/
structure Args where
  external_id : String
  duration_hours : Option Nat
  save_profile_name : Option String

/-- Config-file values that reach the dispatch block. -/
structure Config where
  role_session_name : Option String
  duration_hours : Option Nat

/-- External world of one invocation: the caller-identity lookup outcome
(`none` = the call raised), the STS `assume_role` behaviour, the line read by
`input()` at the save-profile-name prompt (`""` = user pressed return), and
the parsed contents of `~/.aws/config`. -/
structure Env where
  callerIdentity : Option String
  assumeRole : AssumeRoleRequest → Except Unit Credentials
  promptInput : String
  awsConfig : ConfigFile

/-- Everything `main` has resolved by source line 158, bundled for the
dispatch block. -/
structure DispatchCtx where
  args : Args
  config : Config
  env : Env
  role_arn : String
  url : String
  account_display_name : String
  source_profile : String
  role_name : String

/-- Observable effects of the dispatch block: `stdout` chunks (each `cmd`
statement carries its `;` terminator, the final bare `print()` contributes
`"\n"`), `stderr` messages, browser opens, AssumeRole requests sent, config
files written, and the exception terminating `main`, if any. -/
structure DispatchResult where
  stdout : List String
  stderr : List String
  browserOpens : List String
  assumeRequests : List AssumeRoleRequest
  fileWrites : List ConfigFile
  error : Option MainError
deriving DecidableEq

/-- The result before any action has run. -/
def emptyResult : DispatchResult :=
  { stdout := [], stderr := [], browserOpens := [], assumeRequests := [],
    fileWrites := [], error := none }

/-- Embedding of `cmd(*inputs)` (source lines 13, 24-25): the inputs joined
by `print`'s separator, terminated by `CMD_END`. -/
def cmd_statement (inputs : List String) : String :=
  String.intercalate " " inputs ++ ";"

/-- Embedding of `echo(*s)` (source lines 28-29). -/
def echo_statement (x : String) : String :=
  cmd_statement ["echo ", x]

/-- The `"assume" in actions` branch (source lines 162-173).  Note the call
on lines 165-170 passes `duration_hours` but *not* `args.external_id`, so the
request is built with the Python default `""`. -/
def stepAssume (ctx : DispatchCtx) (R : DispatchResult) : DispatchResult :=
  let session_name := generate_session_name ctx.env.callerIdentity ctx.config.role_session_name
  let duration_hours := ctx.args.duration_hours.getD (ctx.config.duration_hours.getD 1)
  let req := assume_role_kwargs ctx.role_arn session_name duration_hours ""
  match ctx.env.assumeRole req with
  | Except.error _ =>
    { R with assumeRequests := R.assumeRequests ++ [req],
             error := some MainError.awsApiError }
  | Except.ok credentials =>
    { R with
      assumeRequests := R.assumeRequests ++ [req],
      stdout := R.stdout
        ++ (generate_session_credentials_commands credentials).map
             (fun command => cmd_statement [command]),
      stderr := R.stderr
        ++ ["'" ++ ctx.role_arn ++ "' from '" ++ ctx.account_display_name ++ "' assumed."] }

/-- The `"browser" in actions` branch (source lines 174-176). -/
def stepBrowser (ctx : DispatchCtx) (R : DispatchResult) : DispatchResult :=
  { R with
    stderr := R.stderr ++ ["opening browser to '" ++ ctx.url ++ "'"],
    browserOpens := R.browserOpens ++ [ctx.url] }

/-- The `"save" in actions` branch (source lines 177-190), including
`choose_save_profile_name` (source lines 115-119). -/
def stepSave (ctx : DispatchCtx) (R : DispatchResult) : DispatchResult :=
  let session_name := generate_session_name ctx.env.callerIdentity ctx.config.role_session_name
  let default_save_profile_name :=
    generate_save_profile_name ctx.account_display_name ctx.role_name
  let chosen :=
    match ctx.args.save_profile_name with
    | some n => (([] : List String), n)
    | none =>
      (["Enter the profile name to save [" ++ default_save_profile_name ++ "]: "],
       if ctx.env.promptInput.isEmpty then default_save_profile_name else ctx.env.promptInput)
  let R1 := { R with
    stderr := R.stderr
      ++ ["saving role assume to an AWS profile",
          "Source profile: " ++ ctx.source_profile,
          "Account name: " ++ ctx.account_display_name,
          "Role ARN: " ++ ctx.role_arn,
          "Role Session Name: " ++ session_name]
      ++ chosen.1
      ++ ["Profile Name: " ++ chosen.2] }
  match save_profile ctx.env.awsConfig ctx.source_profile ctx.role_arn session_name chosen.2 with
  | Except.error e => { R1 with error := some (saveErrorToMain e) }
  | Except.ok newCfg =>
    { R1 with
      fileWrites := R1.fileWrites ++ [newCfg],
      stderr := R1.stderr
        ++ ["Profile saved. Use `--profile " ++ chosen.2 ++ "` or `AWS_PROFILE="
            ++ chosen.2 ++ "` to use it"] }

/-- The `"url" in actions` branch (source lines 191-192). -/
def stepUrl (ctx : DispatchCtx) (R : DispatchResult) : DispatchResult :=
  { R with stdout := R.stdout ++ [echo_statement ("'" ++ ctx.url ++ "'")] }

/-- The `"role" in actions` branch (source lines 193-194). -/
def stepRole (ctx : DispatchCtx) (R : DispatchResult) : DispatchResult :=
  { R with stdout := R.stdout ++ [echo_statement ("'" ++ ctx.role_arn ++ "'")] }

/-- The dispatch block as a function of the five membership tests.  A raised
exception (a `some` in `error`) skips everything that follows, including the
final bare `print()` of source line 195. -/
def dispatchFlags (hasAssume hasBrowser hasSave hasUrl hasRole : Bool)
    (ctx : DispatchCtx) : DispatchResult :=
  let R1 := if hasAssume then stepAssume ctx emptyResult else emptyResult
  let R2 := if R1.error.isSome then R1 else if hasBrowser then stepBrowser ctx R1 else R1
  let R3 := if R2.error.isSome then R2 else if hasSave then stepSave ctx R2 else R2
  let R4 := if R3.error.isSome then R3 else if hasUrl then stepUrl ctx R3 else R3
  let R5 := if R4.error.isSome then R4 else if hasRole then stepRole ctx R4 else R4
  if R5.error.isSome then R5 else { R5 with stdout := R5.stdout ++ ["\n"] }

/-- Embedding of source lines 160-196: the emptiness check of line 160, then
the five fixed-order membership tests. -/
def dispatchActions (actions : List CliAction) (ctx : DispatchCtx) : DispatchResult :=
  if actions.isEmpty then { emptyResult with error := some MainError.invariantFault }
  else
    dispatchFlags (decide (CliAction.assume ∈ actions)) (decide (CliAction.browser ∈ actions))
      (decide (CliAction.save ∈ actions)) (decide (CliAction.url ∈ actions))
      (decide (CliAction.role ∈ actions)) ctx

/-- Concrete credentials used by the example environments. -/
def exampleCredentials : Credentials :=
  { accessKeyId := "AKIAEXAMPLE", secretAccessKey := "secretkey",
    sessionToken := "sessiontoken" }

/-- A concrete resolved invocation: account `111222333444` / role `Admin`,
a working STS, no special flags. -/
def exampleCtx : DispatchCtx :=
  { args := { external_id := "", duration_hours := none, save_profile_name := none }
    config := { role_session_name := none, duration_hours := none }
    env := { callerIdentity := some "arn:aws:iam::999:user/alice"
             assumeRole := fun _ => Except.ok exampleCredentials
             promptInput := ""
             awsConfig := [("profile default", [("region", "us-east-1")])] }
    role_arn := "arn:aws:iam::111222333444:role/Admin"
    url := "https://signin.aws.amazon.com/switchrole?roleName=Admin&account=111222333444&displayName=Example"
    account_display_name := "Example"
    source_profile := "default"
    role_name := "Admin" }

/-- The same invocation with a non-empty `--external-id` flag. -/
def exampleCtxExternalId : DispatchCtx :=
  { exampleCtx with
    args := { external_id := "secret-external-id", duration_hours := none,
              save_profile_name := none } }

/-! ## Theorems -/

/-- Character scalar value of `Char.ofNat` for a valid (non-surrogate)
codepoint below `0xd800`.  Used to reason about `Char.toLower` and the
percent-encoder, whose outputs are all ASCII. -/
theorem char_toNat_ofNat (n : Nat) (h : n < 55296) : (Char.ofNat n).toNat = n := by
  unfold Char.ofNat
  rw [dif_pos (Or.inl h)]
  rfl

/-- `Char.toLower` is idempotent: lower-casing an upper-case ASCII letter
lands outside the upper-case range, and every other character is fixed. -/
theorem toLower_toLower (c : Char) : c.toLower.toLower = c.toLower := by
  unfold Char.toLower
  by_cases h : c.toNat ≥ 65 ∧ c.toNat ≤ 90
  · rw [if_pos h]
    have hv : (Char.ofNat (c.toNat + 32)).toNat = c.toNat + 32 :=
      char_toNat_ofNat _ (by omega)
    rw [if_neg (by rw [hv]; omega)]
  · rw [if_neg h, if_neg h]

/-- The output of one replacement step never lies in the replacement class
(`'-'` is not in the class). -/
theorem slugReplace_contains (c : Char) : slugChars.contains (slugReplace c) = false := by
  unfold slugReplace
  by_cases h : slugChars.contains c = true
  · rw [if_pos h]; decide
  · rw [if_neg h]
    exact Bool.eq_false_iff.mpr h

/-- The output of one replacement step is never a space (spaces are in the
replacement class, hence replaced by `'-'`). -/
theorem slugReplace_ne_space (c : Char) : (slugReplace c == ' ') = false := by
  cases hb : slugReplace c == ' ' with
  | false => rfl
  | true =>
    have he : slugReplace c = ' ' := eq_of_beq hb
    have h2 := slugReplace_contains c
    rw [he] at h2
    exact absurd h2 (by decide)

/-- Pointwise idempotence of the replace-and-lower-case transformation. -/
theorem slug_point (c : Char) :
    slugReplace (Char.toLower (slugReplace (Char.toLower c)))
      = slugReplace (Char.toLower c) := by
  by_cases h : slugChars.contains (Char.toLower c) = true
  · have h1 : slugReplace (Char.toLower c) = '-' := by
      unfold slugReplace; rw [if_pos h]
    rw [h1]; decide
  · have h1 : slugReplace (Char.toLower c) = Char.toLower c := by
      unfold slugReplace; rw [if_neg h]
    rw [h1, toLower_toLower]
    exact h1

theorem slugify_data (s : String) :
    (slugify s).data = s.data.map (fun c => slugReplace (Char.toLower c)) := by
  unfold slugify
  rw [List.map_map]
  rfl

theorem slugify_slugify (s : String) : slugify (slugify s) = slugify s := by
  apply String.ext
  rw [slugify_data, slugify_data, List.map_map]
  exact List.map_congr_left (fun c _ => slug_point c)

theorem slugify_all_clean (s : String) :
    (slugify s).data.all (fun c => !(slugChars.contains c) && !(c == ' ')) = true := by
  rw [slugify_data, List.all_map]
  rw [List.all_eq_true]
  intro c _
  show (!(slugChars.contains (slugReplace (Char.toLower c)))
        && !(slugReplace (Char.toLower c) == ' ')) = true
  rw [slugReplace_contains, slugReplace_ne_space]
  rfl

theorem isPrefixOf_append_self (p t : List Char) : p.isPrefixOf (p ++ t) = true := by
  induction p with
  | nil => simp
  | cons a as ih => simp [List.isPrefixOf_cons₂, ih]

theorem takeWhile_append_of_all (p : Char → Bool) (l1 l2 : List Char)
    (h : ∀ x ∈ l1, p x = true) :
    (l1 ++ l2).takeWhile p = l1 ++ l2.takeWhile p := by
  induction l1 with
  | nil => rfl
  | cons a as ih =>
    have ha : p a = true := h a (List.mem_cons_self a as)
    simp only [List.cons_append, List.takeWhile_cons, ha, if_true]
    rw [ih (fun x hx => h x (List.mem_cons_of_mem a hx))]

theorem dropWhile_append_of_all (p : Char → Bool) (l1 l2 : List Char)
    (h : ∀ x ∈ l1, p x = true) :
    (l1 ++ l2).dropWhile p = l2.dropWhile p := by
  induction l1 with
  | nil => rfl
  | cons a as ih =>
    have ha : p a = true := h a (List.mem_cons_self a as)
    simp only [List.cons_append, List.dropWhile_cons, ha, if_true]
    exact ih (fun x hx => h x (List.mem_cons_of_mem a hx))

theorem digit_not_colon (c : Char) (h : c.isDigit = true) : (!(c == ':')) = true := by
  cases hb : c == ':' with
  | false => rfl
  | true =>
    have : c = ':' := eq_of_beq hb
    rw [this] at h
    exact absurd h (by decide)

theorem splitLines_of_no_newline (s : List Char) (h : ¬ '\n' ∈ s) : splitLines s = [s] := by
  induction s with
  | nil => rfl
  | cons c rest ih =>
    have hc : ¬ c = '\n' := fun hc => h (hc ▸ List.mem_cons_self c rest)
    have hr : splitLines rest = [rest] := ih (fun hm => h (List.mem_cons_of_mem c hm))
    simp [splitLines, hr, hc]

theorem sessionNameFallback_amended (lookup : Option String)
    (h : ∀ arn, lookup = some arn → ¬ '\n' ∈ arn.data) :
    sessionNameFallback lookup = amendedFallback lookup := by
  cases lookup with
  | none => rfl
  | some arn =>
    have hn := h arn rfl
    unfold sessionNameFallback amendedFallback findallFirstGroup
    dsimp only
    rw [splitLines_of_no_newline _ hn]
    cases hj : lastGoodSlash arn.data with
    | some j => simp [List.findSome?, lineGroup, hj]
    | none => simp [List.findSome?, lineGroup, hj]

theorem generate_session_name_amended (lookup roleSessionName : Option String)
    (h : ∀ arn, lookup = some arn → ¬ '\n' ∈ arn.data) :
    generate_session_name lookup roleSessionName
      = amendedSessionName lookup roleSessionName := by
  unfold generate_session_name amendedSessionName
  cases roleSessionName with
  | none => exact sessionNameFallback_amended lookup h
  | some n =>
    cases hn : n.isEmpty with
    | true => simp [hn, sessionNameFallback_amended lookup h]
    | false => simp [hn]

theorem parse_role_arn_list_round (A R : List Char) (h : ∀ x ∈ A, (!(x == ':')) = true) :
    parse_role_arn_list ("arn:aws:iam::".data ++ (A ++ (":role/".data ++ R)))
      = some (A, R) := by
  have hcons : ":role/".data ++ R = ':' :: ("role/".data ++ R) := rfl
  have h1 : ("arn:aws:iam::".data ++ (A ++ (":role/".data ++ R))).drop
      "arn:aws:iam::".data.length = A ++ (":role/".data ++ R) := List.drop_left _ _
  have h2 : (A ++ (":role/".data ++ R)).takeWhile (fun c => !(c == ':')) = A := by
    rw [takeWhile_append_of_all _ _ _ h, hcons]
    simp [List.takeWhile_cons]
  have h3 : (A ++ (":role/".data ++ R)).dropWhile (fun c => !(c == ':'))
      = ":role/".data ++ R := by
    rw [dropWhile_append_of_all _ _ _ h, hcons]
    simp [List.dropWhile_cons]
  have h4 : ":role/".data.isPrefixOf (":role/".data ++ R) = true :=
    isPrefixOf_append_self _ _
  have h5 : (":role/".data ++ R).drop ":role/".data.length = R := List.drop_left _ _
  simp only [parse_role_arn_list, isPrefixOf_append_self, h1, h2, h3, h4, h5, if_true]

theorem role_arn_round_trip (a r : String) (h : a.data.all Char.isDigit = true) :
    parse_role_arn (generate_role_arn a r) = some (a, r) := by
  have hA : ∀ x ∈ a.data, (!(x == ':')) = true :=
    fun x hx => digit_not_colon x (List.all_eq_true.mp h x hx)
  have hdata : (generate_role_arn a r).data
      = "arn:aws:iam::".data ++ (a.data ++ (":role/".data ++ r.data)) := by
    simp [generate_role_arn]
  unfold parse_role_arn
  rw [hdata, parse_role_arn_list_round a.data r.data hA]
  rfl

theorem charToNat_lt (c : Char) : c.toNat < 1114112 := by
  rcases c.valid with h | ⟨_, h⟩
  · exact Nat.lt_trans h (by decide)
  · exact h

theorem utf8Bytes_lt_256 (c : Char) : ∀ n ∈ utf8Bytes c, n < 256 := by
  intro n hn
  have hc : c.toNat < 1114112 := charToNat_lt c
  unfold utf8Bytes at hn
  by_cases h1 : c.toNat < 128
  · simp [h1] at hn
    omega
  · by_cases h2 : c.toNat < 2048
    · simp [h1, h2] at hn
      have hd : c.toNat / 64 < 32 := Nat.div_lt_of_lt_mul (by omega)
      have hm : c.toNat % 64 < 64 := Nat.mod_lt _ (by decide)
      rcases hn with h | h <;> omega
    · by_cases h3 : c.toNat < 65536
      · simp [h1, h2, h3] at hn
        have hd : c.toNat / 4096 < 16 := Nat.div_lt_of_lt_mul (by omega)
        have hm1 : (c.toNat / 64) % 64 < 64 := Nat.mod_lt _ (by decide)
        have hm : c.toNat % 64 < 64 := Nat.mod_lt _ (by decide)
        rcases hn with h | h | h <;> omega
      · simp [h1, h2, h3] at hn
        have hd : c.toNat / 262144 < 5 := Nat.div_lt_of_lt_mul (by omega)
        have hm2 : (c.toNat / 4096) % 64 < 64 := Nat.mod_lt _ (by decide)
        have hm1 : (c.toNat / 64) % 64 < 64 := Nat.mod_lt _ (by decide)
        have hm : c.toNat % 64 < 64 := Nat.mod_lt _ (by decide)
        rcases hn with h | h | h | h <;> omega

theorem urlSafeByte_digit (m : Nat) (h1 : 48 ≤ m) (h2 : m ≤ 57) : urlSafeByte m = true := by
  unfold urlSafeByte
  simp only [Bool.or_eq_true, Bool.and_eq_true, decide_eq_true_eq, beq_iff_eq]
  omega

theorem urlSafeByte_upper (m : Nat) (h1 : 65 ≤ m) (h2 : m ≤ 90) : urlSafeByte m = true := by
  unfold urlSafeByte
  simp only [Bool.or_eq_true, Bool.and_eq_true, decide_eq_true_eq, beq_iff_eq]
  omega

theorem hexUpper_allowed (k : Nat) (hk : k < 16) : urlAllowedChar (hexUpper k) = true := by
  unfold hexUpper
  by_cases h : k < 10
  · rw [if_pos h]
    unfold urlAllowedChar
    rw [char_toNat_ofNat _ (by omega), urlSafeByte_digit _ (by omega) (by omega)]
    rfl
  · rw [if_neg h]
    unfold urlAllowedChar
    rw [char_toNat_ofNat _ (by omega), urlSafeByte_upper _ (by omega) (by omega)]
    rfl

theorem quoteByte_allowed (n : Nat) (hn : n < 256) :
    ∀ ch ∈ quoteByte n, urlAllowedChar ch = true := by
  intro ch hch
  unfold quoteByte at hch
  by_cases hs : urlSafeByte n = true
  · simp only [hs, if_true, List.mem_singleton] at hch
    subst hch
    unfold urlAllowedChar
    rw [char_toNat_ofNat n (by omega), hs]
    rfl
  · by_cases h32 : (n == 32) = true
    · simp only [hs, h32, if_true, if_false, Bool.false_eq_true, List.mem_singleton] at hch
      subst hch
      decide
    · simp only [hs, h32, if_false, Bool.false_eq_true, List.mem_cons,
        List.mem_singleton, List.not_mem_nil, or_false] at hch
      rcases hch with h | h | h
      · subst h; decide
      · subst h
        exact hexUpper_allowed _ (Nat.div_lt_of_lt_mul (by omega))
      · subst h
        exact hexUpper_allowed _ (Nat.mod_lt _ (by decide))

theorem quote_plus_all_allowed (d : String) :
    (quote_plus d).data.all urlAllowedChar = true := by
  unfold quote_plus
  show ((((d.data.map utf8Bytes).flatten).map quoteByte).flatten).all urlAllowedChar = true
  rw [List.all_eq_true]
  intro c hc
  rw [List.mem_flatten] at hc
  obtain ⟨piece, hp, hcp⟩ := hc
  rw [List.mem_map] at hp
  obtain ⟨n, hn, rfl⟩ := hp
  rw [List.mem_flatten] at hn
  obtain ⟨bs, hbs, hnbs⟩ := hn
  rw [List.mem_map] at hbs
  obtain ⟨ch, _, rfl⟩ := hbs
  exact quoteByte_allowed n (utf8Bytes_lt_256 ch n hnbs) c hcp

/-! ## Claims -/

/-- Claim C1 (code bug): the claim says a non-empty `--external-id` is
included as `ExternalId` in the role-assumption request.
`generate_session_credentials_commands` would honour it (third conjunct),
but `main`'s call on source lines 165-170 never passes `args.external_id`,
so the request sent during an `assume` dispatch always omits `ExternalId`
even though the flag was set to `"secret-external-id"` (first two
conjuncts). -/
theorem claim1_external_id_dropped :
    exampleCtxExternalId.args.external_id = "secret-external-id"
    ∧ (dispatchActions [CliAction.assume] exampleCtxExternalId).assumeRequests
        = [{ roleArn := "arn:aws:iam::111222333444:role/Admin", roleSessionName := "alice",
             durationSeconds := 3600, externalId := none }]
    ∧ (assume_role_kwargs "arn:aws:iam::111222333444:role/Admin" "alice" 1
        "secret-external-id").externalId = some "secret-external-id" := by
  refine ⟨rfl, by decide, rfl⟩

/-- Claim C2: with no explicit role, the candidate set is `roles[AccountId]`
if present, else `roles["_"]` if present, else the hardcoded default
(`candidateRoles`); a sole candidate is returned without prompting, more
than one prompts over the sorted candidates; in particular with
`roles = {"_": ["A"], 111: ["B","C"]}` account 111 prompts over
`["B","C"]` and account 222 returns `"A"` without prompting. -/
theorem claim2_role_resolution :
    (∀ (rm : RoleMap) (a : Nat) (r : String), candidateRoles rm a = [r] →
        choose_role_name rm a none = RoleChoice.noPrompt r)
    ∧ (∀ (rm : RoleMap) (a : Nat), 2 ≤ (candidateRoles rm a).length →
        choose_role_name rm a none = RoleChoice.prompt (sortStrings (candidateRoles rm a)))
    ∧ choose_role_name exampleRoleMap 111 none = RoleChoice.prompt ["B", "C"]
    ∧ choose_role_name exampleRoleMap 222 none = RoleChoice.noPrompt "A" := by
  refine ⟨?_, ?_, by decide, by decide⟩
  · intro rm a r hc
    simp [choose_role_name, hc]
  · intro rm a h2
    cases hc : candidateRoles rm a with
    | nil => rw [hc] at h2; simp at h2
    | cons x xs =>
      cases xs with
      | nil => rw [hc] at h2; simp at h2
      | cons y ys => simp [choose_role_name, hc]

/-- Witness for C2: a wildcard-only map with a single role is returned
without prompting. -/
theorem claim2_role_resolution_witness :
    choose_role_name [(RoleKey.wildcard, ["A"])] 5 none = RoleChoice.noPrompt "A" :=
  claim2_role_resolution.1 [(RoleKey.wildcard, ["A"])] 5 "A" (by decide)

/-- Claim C3: the dispatch block only consumes the action list through the
five fixed-order membership tests, so two requested action lists equal as
sets produce identical results; concretely, `[url, assume]` and
`[assume, url]` both emit the `assume` exports first, then the url echo,
then the empty terminating statement. -/
theorem claim3_dispatch_order_independent :
    (∀ (l1 l2 : List CliAction) (ctx : DispatchCtx),
        (∀ x, x ∈ l1 ↔ x ∈ l2) → dispatchActions l1 ctx = dispatchActions l2 ctx)
    ∧ (dispatchActions [CliAction.url, CliAction.assume] exampleCtx).stdout
        = ["export AWS_ACCESS_KEY_ID=\"AKIAEXAMPLE\";",
           "export AWS_SECRET_ACCESS_KEY=\"secretkey\";",
           "export AWS_SESSION_TOKEN=\"sessiontoken\";",
           "echo  'https://signin.aws.amazon.com/switchrole?roleName=Admin&account=111222333444&displayName=Example';",
           "\n"] := by
  constructor
  · intro l1 l2 ctx h
    have hempty : l1.isEmpty = l2.isEmpty := by
      cases l1 with
      | nil =>
        cases l2 with
        | nil => rfl
        | cons b bs => exact absurd ((h b).mpr (List.mem_cons_self b bs)) (List.not_mem_nil b)
      | cons a as =>
        cases l2 with
        | nil => exact absurd ((h a).mp (List.mem_cons_self a as)) (List.not_mem_nil a)
        | cons b bs => rfl
    unfold dispatchActions
    rw [hempty, decide_eq_decide.mpr (h CliAction.assume),
      decide_eq_decide.mpr (h CliAction.browser), decide_eq_decide.mpr (h CliAction.save),
      decide_eq_decide.mpr (h CliAction.url), decide_eq_decide.mpr (h CliAction.role)]
  · decide

/-- Witness for C3: the two orderings of `{url, assume}` give identical
dispatch results. -/
theorem claim3_dispatch_order_independent_witness :
    dispatchActions [CliAction.url, CliAction.assume] exampleCtx
      = dispatchActions [CliAction.assume, CliAction.url] exampleCtx :=
  claim3_dispatch_order_independent.1 _ _ exampleCtx (by intro x; cases x <;> decide)

/-- Claim C4 counterexample: the claim predicts the substring after the
final `'/'` whenever it is nonempty, and the literal otherwise.  The code's
regex `.+/(.+)` disagrees at both edges: for ARN `"a/b/"` the claim predicts
the literal (nothing follows the final slash) but the code returns `"b/"`;
for ARN `"/b"` the claim predicts `"b"` but the code returns the literal
(the regex needs a character before the slash). -/
theorem claim4_counterexample :
    generate_session_name (some "a/b/") none = "b/"
    ∧ claimedSessionName (some "a/b/") none = "awslaunch"
    ∧ generate_session_name (some "/b") none = "awslaunch"
    ∧ claimedSessionName (some "/b") none = "b" := by
  refine ⟨by decide, by decide, by decide, by decide⟩

/-- Claim C4 (amended): for every config value and every identity-lookup
outcome whose ARN contains no newline, `generate_session_name` returns the
configured name when set and non-empty; otherwise the suffix after the last
`'/'` that has at least one character before it and at least one character
after it; otherwise (lookup failure or no such slash) the literal
`"awslaunch"`, without raising. -/
theorem claim4_session_name_resolution (lookup roleSessionName : Option String)
    (h : ∀ arn, lookup = some arn → ¬ '\n' ∈ arn.data) :
    generate_session_name lookup roleSessionName
      = amendedSessionName lookup roleSessionName :=
  generate_session_name_amended lookup roleSessionName h

/-- Witness for C4: a realistic assumed-role ARN resolves to its last path
segment on both sides. -/
theorem claim4_session_name_resolution_witness :
    generate_session_name (some "arn:aws:sts::111:assumed-role/Admin/alice") none
      = amendedSessionName (some "arn:aws:sts::111:assumed-role/Admin/alice") none :=
  claim4_session_name_resolution (some "arn:aws:sts::111:assumed-role/Admin/alice") none
    (by intro arn harn; cases harn; decide)

/-- Claim C5: when a section named `profile <profile_name>` already exists,
`save_profile` raises the duplicate-section error (the spec's
`ProfileConflictError`) from `add_section`, before the file is opened for
writing, so the on-disk file is unchanged. -/
theorem claim5_profile_conflict (cfg : ConfigFile) (sp ra sn pn : String)
    (h : cfg.any (fun sec => sec.1 == "profile " ++ pn) = true) :
    save_profile cfg sp ra sn pn = Except.error SaveError.duplicateSection
    ∧ save_profile_file_after cfg sp ra sn pn = cfg := by
  constructor
  · simp [save_profile, h]
  · simp [save_profile_file_after, save_profile, h]

/-- Witness for C5: saving over the existing `profile dev` section fails and
leaves the file as read. -/
theorem claim5_profile_conflict_witness :
    save_profile [("profile default", [("region", "us-east-1")]), ("profile dev", [])]
        "default" "arn:aws:iam::1:role/r" "alice" "dev"
      = Except.error SaveError.duplicateSection
    ∧ save_profile_file_after
        [("profile default", [("region", "us-east-1")]), ("profile dev", [])]
        "default" "arn:aws:iam::1:role/r" "alice" "dev"
      = [("profile default", [("region", "us-east-1")]), ("profile dev", [])] :=
  claim5_profile_conflict _ "default" "arn:aws:iam::1:role/r" "alice" "dev" (by decide)

/-- Claim C6: the replace-and-lower-case transformation is idempotent (also
on the default save-profile name it produces), and its output never contains
a character of the replacement class nor a space. -/
theorem claim6_slug_idempotent_clean :
    (∀ s, slugify (slugify s) = slugify s)
    ∧ (∀ a r, slugify (generate_save_profile_name a r) = generate_save_profile_name a r)
    ∧ (∀ s, (slugify s).data.all (fun c => !(slugChars.contains c) && !(c == ' ')) = true) :=
  ⟨slugify_slugify, fun a r => slugify_slugify (a ++ "-" ++ r), slugify_all_clean⟩

/-- Claim C7: for every numeric account id and every role name, parsing the
generated ARN by the format recovers exactly the pair. -/
theorem claim7_role_arn_round_trip (a r : String) (h : a.data.all Char.isDigit = true) :
    parse_role_arn (generate_role_arn a r) = some (a, r) :=
  role_arn_round_trip a r h

/-- Witness for C7: the round trip at a concrete 12-digit account id. -/
theorem claim7_role_arn_round_trip_witness :
    parse_role_arn (generate_role_arn "111222333444" "OrganizationAccountAccessRole")
      = some ("111222333444", "OrganizationAccountAccessRole") :=
  claim7_role_arn_round_trip "111222333444" "OrganizationAccountAccessRole" (by decide)

/-- Claim C8: the switch-role URL is the fixed skeleton with the role name
and account id inserted verbatim (unencoded) and only the display name
passed through `quote_plus`, whose output consists solely of unreserved
bytes, `'+'`, and `'%'`-escapes — every reserved URL character of the
display name is encoded away. -/
theorem claim8_url_encodes_only_display_name (role_name account_id display_name : String) :
    generate_url role_name account_id display_name
      = "https://signin.aws.amazon.com/switchrole?roleName=" ++ role_name
        ++ "&account=" ++ account_id ++ "&displayName=" ++ quote_plus display_name
    ∧ (quote_plus display_name).data.all urlAllowedChar = true :=
  ⟨rfl, quote_plus_all_allowed display_name⟩

/-- Claim C9: an empty resolved action set makes the dispatcher raise the
internal-invariant `Exception` of source line 161 before doing anything — no
stdout statement, no stderr message, no browser open, no STS request, no
file write — and that diagnostic differs from every ordinary usage error of
the taxonomy. -/
theorem claim9_empty_action_set_fault (ctx : DispatchCtx) :
    dispatchActions [] ctx = { emptyResult with error := some MainError.invariantFault }
    ∧ ([MainError.directoryError, MainError.notFoundError, MainError.selectionAbortedError,
        MainError.awsApiError, MainError.profileConflictError].all
          (fun e => !(e == MainError.invariantFault))) = true :=
  ⟨rfl, by decide⟩

/-- Claim C10: when the target section is absent and the source section is
present, `save_profile` succeeds and writes exactly the old file with the
new `profile <profile_name>` section appended — a copy of the source
section's items with `source_profile`, `role_session_name`, `role_arn`
overwritten — so every pre-existing section survives unchanged. -/
theorem claim10_save_frame (cfg : ConfigFile) (sp ra sn pn : String)
    (srcItems : List (String × String))
    (h1 : cfg.any (fun sec => sec.1 == "profile " ++ pn) = false)
    (h2 : cfg.find? (fun sec => sec.1 == "profile " ++ sp)
        = some ("profile " ++ sp, srcItems)) :
    save_profile cfg sp ra sn pn = Except.ok (cfg ++ [("profile " ++ pn,
      setConfigKey (setConfigKey (setConfigKey srcItems "source_profile" sp)
        "role_session_name" sn) "role_arn" ra)])
    ∧ ∀ sec ∈ cfg, sec ∈ save_profile_file_after cfg sp ra sn pn := by
  constructor
  · simp [save_profile, h1, h2]
  · intro sec hs
    simp [save_profile_file_after, save_profile, h1, h2]
    exact Or.inl hs

/-- Witness for C10: a concrete save into a two-section file appends the new
section and keeps both old sections. -/
theorem claim10_save_frame_witness :
    save_profile [("profile default", [("region", "us-east-1")]), ("profile dev", [])]
        "default" "arn:aws:iam::1:role/r" "alice" "team-admin"
      = Except.ok [("profile default", [("region", "us-east-1")]), ("profile dev", []),
          ("profile team-admin",
            [("region", "us-east-1"), ("source_profile", "default"),
             ("role_session_name", "alice"), ("role_arn", "arn:aws:iam::1:role/r")])]
    ∧ ∀ sec ∈ ([("profile default", [("region", "us-east-1")]), ("profile dev", [])] :
          ConfigFile),
        sec ∈ save_profile_file_after
          [("profile default", [("region", "us-east-1")]), ("profile dev", [])]
          "default" "arn:aws:iam::1:role/r" "alice" "team-admin" := by
  have hmain := claim10_save_frame
    [("profile default", [("region", "us-east-1")]), ("profile dev", [])]
    "default" "arn:aws:iam::1:role/r" "alice" "team-admin"
    [("region", "us-east-1")] (by decide) (by decide)
  exact ⟨hmain.1, hmain.2⟩
